import Mathlib

/-!
Verification of the doc-store authentication flow.

Shallow embedding of:
* `src/lib/appwrite/index.ts` (`createSessionClient`),
* `src/lib/actions/user.actions.ts` (`getUserByEmail`, `sendEmailOTP`,
  `createAccount`, `verifySecret`, `getCurrentUser`, `signOutUser`,
  `signInUser`),
* `src/components/AuthForm.tsx` (`authFormSchema`).

The external Appwrite platform is a parameter (`Env`): each SDK call the
actions make is a field of `Env` returning either a value or an error
message.  The local state (`St`) holds the users collection of the external
database, the single cookie these actions ever touch (named
`appwrite-session`), and a counter standing for the `ID.unique()` generator.
Each action returns its result, the state after the call, and a trace of the
externally visible effects it performed, in order.
-/

namespace DocStore

/-- The sameSite attribute of a cookie. -/
inductive SameSite
  | strict
  | lax
  | noneAttr
deriving DecidableEq, Repr

/-- A cookie as written by `cookies().set(name, value, options)`. -/
structure Cookie where
  value : String
  path : String
  httpOnly : Bool
  sameSite : SameSite
  secure : Bool
deriving DecidableEq, Repr

/-- A document of the users collection (`fullName`, `email`, `avatar`,
`accountId`, plus the document id Appwrite assigns). -/
structure UserDoc where
  docId : String
  fullName : String
  email : String
  avatar : String
  accountId : String
deriving DecidableEq, Repr

/-- State the actions can observe or change: the users collection of the
external database, the `appwrite-session` cookie (`none` when the cookie is
absent), and the counter backing `ID.unique()`. -/
structure St where
  users : List UserDoc
  cookie : Option Cookie
  nextId : Nat
deriving DecidableEq, Repr

/-- A session issued by `account.createSession`: its `$id` and its `secret`. -/
structure Session where
  id : String
  secret : String
deriving DecidableEq, Repr

/-- Errors an action can end with: the `"No session found"` error thrown by
`createSessionClient`, the `"Failed to send email OTP."` error thrown by
`createAccount`, and errors coming from the provider SDK (re-thrown by
`handleError`). -/
inductive Err
  | noSession
  | otpSendFailed
  | provider (msg : String)
deriving DecidableEq, Repr

/-- The external Appwrite platform, as reached through the admin and session
clients.  Each field is one SDK call: it yields a value or an error message.
`createEmailToken` returns the token's `userId` (the account id);
`createSession` exchanges an `{accountId, otp}` pair for a session;
`accountGet` maps a session value to the identity's `$id`;
`deleteSession` deletes the session bound to a session value. -/
structure Env where
  createEmailToken : String → Except String String
  createSession : String → String → Except String Session
  accountGet : String → Except String String
  deleteSession : String → Except String Unit

/-- Externally visible effects, in the order they happen. -/
inductive Ev
  | lookupUser (email : String)
  | otpRequested (email : String)
  | docCreated (docId : String)
  | cookieSet
  | sessionDeleted
  | cookieDeleted
deriving DecidableEq, Repr

/-- Modelled from the spec: `parseStringify` lives in `src/lib/utils`, which
is not under `src/`.  It is the JSON round-trip the actions apply to every
returned record; on the plain string records returned here it is the
identity. -/
def parseStringify {α : Type} (x : α) : α := x

/-- Modelled from the spec: `avatarPlaceholderUrl` is imported from
`@/constants`, which is not under `src/`.  The spec describes it as the URL
of a placeholder avatar given to every newly created User document. -/
def avatarPlaceholderUrl : String := "/assets/images/avatar-placeholder.png"

/-- Handle returned by `createSessionClient`: the `account` and `databases`
getters, each a service bound to the session value read from the cookie. -/
structure SessionClient where
  account : String
  databases : String
deriving DecidableEq, Repr

/-- `createSessionClient` (src/lib/appwrite/index.ts, lines 21 to 49): reads
the `appwrite-session` cookie; if it is absent or its value is empty, throws
`"No session found"`; otherwise returns the handle whose services are bound
to the cookie value via `client.setSession`. -/
def createSessionClient (cookie : Option Cookie) : Except Err SessionClient :=
  match cookie with
  | none => .error .noSession
  | some c =>
    if c.value = "" then .error .noSession
    else .ok ⟨c.value, c.value⟩

/-- `listDocuments` with `Query.equal("email", email)`: the documents whose
`email` attribute equals `email`, in collection order. -/
def listByEmail (users : List UserDoc) (email : String) : List UserDoc :=
  users.filter (fun d => d.email = email)

/-- `getUserByEmail` (user.actions.ts, lines 18 to 28): queries the users
collection through the admin client and returns the first match, or none.
It reads but never changes the state. -/
def getUserByEmail (st : St) (email : String) :
    Option UserDoc × St × List Ev :=
  ((listByEmail st.users email).head?, st, [Ev.lookupUser email])

/-- `sendEmailOTP` (user.actions.ts, lines 47 to 56): asks the provider to
create an email token for the address; returns the token's `userId`.  On a
provider error `handleError` logs and re-throws.  The `otpRequested` event
records the one `createEmailToken` call this function always makes. -/
def sendEmailOTP (env : Env) (st : St) (email : String) :
    Except Err String × St × List Ev :=
  (match env.createEmailToken email with
   | .ok userId => .ok userId
   | .error e => .error (.provider e),
   st, [Ev.otpRequested email])

/-- The record `{ accountId }` returned by `createAccount`. -/
structure AccountIdResult where
  accountId : String
deriving DecidableEq, Repr

/-- `createAccount` (user.actions.ts, lines 70 to 99): looks the user up by
email, then sends the OTP; throws `"Failed to send email OTP."` when the
returned account id is falsy; when no user existed, creates one User
document with the placeholder avatar and a fresh `ID.unique()` document id;
returns `{ accountId }`. -/
def createAccount (env : Env) (st : St) (fullName email : String) :
    Except Err AccountIdResult × St × List Ev :=
  let r1 := getUserByEmail st email
  let r2 := sendEmailOTP env r1.2.1 email
  let st2 := r2.2.1
  let tr := r1.2.2 ++ r2.2.2
  match r2.1 with
  | .error e => (.error e, st2, tr)
  | .ok accountId =>
    if accountId = "" then
      (.error .otpSendFailed, st2, tr)
    else
      match r1.1 with
      | some _ => (.ok (parseStringify ⟨accountId⟩), st2, tr)
      | none =>
        let doc : UserDoc :=
          ⟨toString st2.nextId, fullName, email, avatarPlaceholderUrl, accountId⟩
        (.ok (parseStringify ⟨accountId⟩),
         { st2 with users := st2.users ++ [doc], nextId := st2.nextId + 1 },
         tr ++ [Ev.docCreated doc.docId])

/-- The record `{ sessionId }` returned by `verifySecret`. -/
structure SessionIdResult where
  sessionId : String
deriving DecidableEq, Repr

/-- `verifySecret` (user.actions.ts, lines 107 to 130): exchanges the
`{accountId, otp}` pair for a session via the admin client; on success
stores the session secret as the `appwrite-session` cookie with path `/`,
httpOnly, sameSite strict and secure, and returns `{ sessionId }`; on
failure `handleError` re-throws and nothing was written. -/
def verifySecret (env : Env) (st : St) (accountId otp : String) :
    Except Err SessionIdResult × St × List Ev :=
  match env.createSession accountId otp with
  | .ok session =>
    (.ok (parseStringify ⟨session.id⟩),
     { st with cookie := some ⟨session.secret, "/", true, .strict, true⟩ },
     [Ev.cookieSet])
  | .error e => (.error (.provider e), st, [])

/-- `getCurrentUser` (user.actions.ts, lines 138 to 156): builds the session
client, fetches the identity, and queries the users collection by the
identity's `$id`.  Every failure is caught and only logged, so the function
returns a document or nothing and never throws; it also returns nothing when
no document matches. -/
def getCurrentUser (env : Env) (st : St) : Option UserDoc × St × List Ev :=
  match createSessionClient st.cookie with
  | .error _ => (none, st, [])
  | .ok client =>
    match env.accountGet client.account with
    | .error _ => (none, st, [])
    | .ok accId =>
      match (st.users.filter (fun d => d.accountId = accId)).head? with
      | none => (none, st, [])
      | some d => (some (parseStringify d), st, [])

/-- How an invocation of `signOutUser` ends: with the `redirect` throw Next
turns into a navigation, or with an ordinary error escaping the function. -/
inductive SignOutResult
  | redirected (path : String)
  | raised (e : Err)
deriving DecidableEq, Repr

/-- `signOutUser` (user.actions.ts, lines 164 to 175): builds the session
client OUTSIDE the try block, so a missing or empty cookie throws before any
redirect.  Inside the try it deletes the provider session and the cookie; on
a deletion error `handleError` re-throws, but the `redirect("/sign-in")` in
the finally block throws the redirect signal, which replaces the error, so
that invocation still ends in the redirect (with the cookie not deleted). -/
def signOutUser (env : Env) (st : St) : SignOutResult × St × List Ev :=
  match createSessionClient st.cookie with
  | .error e => (.raised e, st, [])
  | .ok client =>
    match env.deleteSession client.account with
    | .ok _ =>
      (.redirected "/sign-in", { st with cookie := none },
       [Ev.sessionDeleted, Ev.cookieDeleted])
    | .error _ => (.redirected "/sign-in", st, [])

/-- The record returned by `signInUser`: `{ accountId }` on success,
`{ accountId: null, error: "User not found" }` when no user matches. -/
structure SignInResult where
  accountId : Option String
  error : Option String
deriving DecidableEq, Repr

/-- `signInUser` (user.actions.ts, lines 187 to 201): looks the user up by
email; if found, sends an OTP and returns the existing document's
`accountId`; if not found, returns `{ accountId: null, error: "User not
found" }` without throwing.  Errors of the inner calls are re-thrown by
`handleError`. -/
def signInUser (env : Env) (st : St) (email : String) :
    Except Err SignInResult × St × List Ev :=
  let r1 := getUserByEmail st email
  match r1.1 with
  | some u =>
    let r2 := sendEmailOTP env r1.2.1 email
    match r2.1 with
    | .ok _ =>
      (.ok (parseStringify ⟨some u.accountId, none⟩), r2.2.1, r1.2.2 ++ r2.2.2)
    | .error e => (.error e, r2.2.1, r1.2.2 ++ r2.2.2)
  | none =>
    (.ok (parseStringify ⟨none, some "User not found"⟩), r1.2.1, r1.2.2)

/-- The two variants of the auth form. -/
inductive FormType
  | signIn
  | signUp
deriving DecidableEq, Repr

/-- Modelled from the spec: the email validator behind `z.string().email()`
lives in the external zod dependency, not in this repository.  The spec
calls it a check that the string is a well-formed, non-empty address:
exactly one `@`, a non-empty local part, no whitespace, and a non-empty
domain that contains a dot and neither starts nor ends with one. -/
def isWellFormedEmail (s : String) : Bool :=
  let cs := s.toList
  let localPart := cs.takeWhile (fun ch => ch ≠ '@')
  match cs.dropWhile (fun ch => ch ≠ '@') with
  | '@' :: domain =>
    !localPart.isEmpty && !domain.isEmpty &&
    !(domain.contains '@') && !(cs.contains ' ') &&
    domain.contains '.' &&
    domain.head? != some '.' && domain.getLast? != some '.'
  | _ => false

/-- `authFormSchema` (AuthForm.tsx, lines 33 to 41): `email` must pass the
zod email validator; `fullName` must be a string of 2 to 50 characters in
sign-up mode and is `z.string().optional()` in sign-in mode.  `fullName` is
`none` when the field is absent. -/
def authFormSchema (t : FormType) (email : String) (fullName : Option String) :
    Bool :=
  isWellFormedEmail email &&
  (match t with
   | .signUp =>
     match fullName with
     | some n => decide (2 ≤ n.length) && decide (n.length ≤ 50)
     | none => false
   | .signIn => true)

/-! Concrete fixtures used by counterexamples and witnesses. -/

/-- A provider on which every SDK call succeeds. -/
def envOk : Env where
  createEmailToken := fun _ => .ok "acct-1"
  createSession := fun _ _ => .ok ⟨"sess-1", "secret-1"⟩
  accountGet := fun _ => .ok "acct-1"
  deleteSession := fun _ => .ok ()

/-- A provider on which every SDK call fails. -/
def envDown : Env where
  createEmailToken := fun _ => .error "network"
  createSession := fun _ _ => .error "invalid otp"
  accountGet := fun _ => .error "invalid session"
  deleteSession := fun _ => .error "network"

/-- A valid session cookie. -/
def cookieEx : Cookie := ⟨"secret-1", "/", true, .strict, true⟩

/-- A state with no users, no cookie. -/
def stEmpty : St := ⟨[], none, 0⟩

/-- A registered user. -/
def userEx : UserDoc := ⟨"doc-0", "Ann", "a@x.com", avatarPlaceholderUrl, "acct-1"⟩

/-- A state with one registered user and a valid session cookie. -/
def stUser : St := ⟨[userEx], some cookieEx, 1⟩

/-- Selects the `otpRequested` events of a trace. -/
def isOtpRequested : Ev → Bool
  | .otpRequested _ => true
  | _ => false

/-- Selects the `docCreated` events of a trace. -/
def isDocCreated : Ev → Bool
  | .docCreated _ => true
  | _ => false

/-! ## C1: signOutUser and the redirect -/

/-- C1 counterexample: the claim says every invocation of `signOutUser` ends
by redirecting to `/sign-in` regardless of the session cookie's presence.
With no cookie present (and a provider on which deletion would succeed),
`createSessionClient` throws before the try/finally block, so the invocation
ends with the `"No session found"` error, not with a redirect. -/
theorem signOutUser_no_cookie_not_redirect :
    (signOutUser envOk stEmpty).1 = SignOutResult.raised Err.noSession ∧
    (signOutUser envOk stEmpty).1 ≠ SignOutResult.redirected "/sign-in" := by
  refine ⟨rfl, ?_⟩
  decide

/-- C1 (amended): when the session cookie is present with a non-empty value,
`signOutUser` ends by redirecting to `/sign-in` whether the provider's
session deletion succeeds or fails; when the cookie is missing or empty, the
unauthenticated error escapes before any redirect. -/
theorem signOutUser_redirects (env : Env) (st : St) (c : Cookie)
    (hc : st.cookie = some c) (hv : c.value ≠ "") :
    (signOutUser env st).1 = SignOutResult.redirected "/sign-in" := by
  unfold signOutUser createSessionClient
  rw [hc]
  simp only [hv, if_neg]
  cases h : env.deleteSession c.value <;> simp [h]

/-- C1 witness: the amended theorem at the one-user state, both on a provider
where deletion succeeds and on one where it fails. -/
theorem signOutUser_redirects_witness :
    (signOutUser envOk stUser).1 = SignOutResult.redirected "/sign-in" ∧
    (signOutUser envDown stUser).1 = SignOutResult.redirected "/sign-in" :=
  ⟨signOutUser_redirects envOk stUser cookieEx rfl (by decide),
   signOutUser_redirects envDown stUser cookieEx rfl (by decide)⟩

/-! ## C2: verifySecret -/

/-- C2: when the provider accepts the `{accountId, otp}` pair, the session
secret is stored as the `appwrite-session` cookie with path `/`, httpOnly,
sameSite strict and secure, and `{ sessionId }` is returned; when the
provider rejects the pair, `verifySecret` ends in an error and the cookie
store is exactly what it was. -/
theorem verifySecret_spec (env : Env) (st : St) (accountId otp : String) :
    (∀ s, env.createSession accountId otp = .ok s →
      verifySecret env st accountId otp =
        (.ok ⟨s.id⟩,
         { st with cookie := some ⟨s.secret, "/", true, .strict, true⟩ },
         [Ev.cookieSet])) ∧
    (∀ e, env.createSession accountId otp = .error e →
      verifySecret env st accountId otp = (.error (.provider e), st, [])) := by
  constructor <;> intro x hx <;> simp [verifySecret, hx, parseStringify]

/-- C2 witness: the accepting branch at a concrete pair and the rejecting
branch at a concrete pair. -/
theorem verifySecret_spec_witness :
    verifySecret envOk stEmpty "acct-1" "123456" =
      (.ok ⟨"sess-1"⟩,
       ⟨[], some ⟨"secret-1", "/", true, .strict, true⟩, 0⟩,
       [Ev.cookieSet]) ∧
    verifySecret envDown stEmpty "acct-1" "000000" =
      (.error (.provider "invalid otp"), stEmpty, []) :=
  ⟨(verifySecret_spec envOk stEmpty "acct-1" "123456").1 ⟨"sess-1", "secret-1"⟩ rfl,
   (verifySecret_spec envDown stEmpty "acct-1" "000000").2 "invalid otp" rfl⟩

/-! ## C7: createSessionClient -/

/-- C7: `createSessionClient` fails with the unauthenticated error exactly
when the `appwrite-session` cookie is missing or has an empty value;
otherwise it returns the handle whose account and databases services are
bound to the cookie's session value. -/
theorem createSessionClient_spec (cookie : Option Cookie) :
    (createSessionClient cookie = .error Err.noSession ↔
      (cookie = none ∨ ∃ c, cookie = some c ∧ c.value = "")) ∧
    (∀ c, cookie = some c → c.value ≠ "" →
      createSessionClient cookie = .ok ⟨c.value, c.value⟩) := by
  constructor
  · cases cookie with
    | none => simp [createSessionClient]
    | some c =>
      by_cases hv : c.value = "" <;> simp [createSessionClient, hv]
  · intro c hc hv
    subst hc
    simp [createSessionClient, hv]

/-- C7 witness: the error branch on a missing cookie and on an empty cookie,
and the handle branch on a concrete non-empty cookie. -/
theorem createSessionClient_spec_witness :
    createSessionClient (some cookieEx) = .ok ⟨"secret-1", "secret-1"⟩ ∧
    (createSessionClient none = .error Err.noSession ∧
     createSessionClient (some ⟨"", "/", true, .strict, true⟩) =
       .error Err.noSession) :=
  ⟨(createSessionClient_spec (some cookieEx)).2 cookieEx rfl (by decide),
   ⟨(createSessionClient_spec none).1.mpr (Or.inl rfl),
    (createSessionClient_spec (some ⟨"", "/", true, .strict, true⟩)).1.mpr
      (Or.inr ⟨_, rfl, rfl⟩)⟩⟩

/-! ## C3, C4, C9: createAccount -/

/-- C3: for a `{fullName, email}` input with no User document under that
email, when the OTP dispatch succeeds (the provider returns a non-empty
account id), `createAccount` appends exactly one User document, carrying the
placeholder avatar, and returns that non-empty account id.  The trace shows
exactly one document creation. -/
theorem createAccount_new_user (env : Env) (st : St)
    (fullName email accId : String)
    (hno : listByEmail st.users email = [])
    (hok : env.createEmailToken email = .ok accId) (hne : accId ≠ "") :
    (createAccount env st fullName email).1 = .ok ⟨accId⟩ ∧
    (createAccount env st fullName email).2.1.users =
      st.users ++
        [⟨toString st.nextId, fullName, email, avatarPlaceholderUrl, accId⟩] ∧
    (createAccount env st fullName email).2.2 =
      [Ev.lookupUser email, Ev.otpRequested email,
       Ev.docCreated (toString st.nextId)] := by
  simp [createAccount, getUserByEmail, sendEmailOTP, hno, hok, hne,
    parseStringify]

/-- C3 witness: a fresh sign-up on the empty state creates the one document
and returns the provider's account id. -/
theorem createAccount_new_user_witness :
    (createAccount envOk stEmpty "Ann" "a@x.com").1 = .ok ⟨"acct-1"⟩ ∧
    (createAccount envOk stEmpty "Ann" "a@x.com").2.1.users =
      [] ++ [⟨"0", "Ann", "a@x.com", avatarPlaceholderUrl, "acct-1"⟩] ∧
    (createAccount envOk stEmpty "Ann" "a@x.com").2.2 =
      [Ev.lookupUser "a@x.com", Ev.otpRequested "a@x.com", Ev.docCreated "0"] :=
  createAccount_new_user envOk stEmpty "Ann" "a@x.com" "acct-1" rfl rfl
    (by decide)

/-- C4: for an email under which a User document already exists,
`createAccount` leaves the state unchanged (in particular it creates no
second document), yet its trace holds exactly one `otpRequested` event and
no `docCreated` event — and this for every provider behaviour, since
`sendEmailOTP` is called exactly once before its outcome is examined. -/
theorem createAccount_existing_user (env : Env) (st : St)
    (fullName email : String) (u : UserDoc)
    (hex : (listByEmail st.users email).head? = some u) :
    (createAccount env st fullName email).2.1 = st ∧
    (createAccount env st fullName email).2.2.filter isOtpRequested =
      [Ev.otpRequested email] ∧
    (createAccount env st fullName email).2.2.filter isDocCreated = [] := by
  cases h : env.createEmailToken email with
  | ok accountId =>
    by_cases ha : accountId = "" <;>
      simp [createAccount, getUserByEmail, sendEmailOTP, hex, h, ha,
        parseStringify, isOtpRequested, isDocCreated]
  | error e =>
    simp [createAccount, getUserByEmail, sendEmailOTP, hex, h,
      isOtpRequested, isDocCreated]

/-- C4 witness: a second sign-up for the already registered email leaves the
state as it was and requests exactly one OTP. -/
theorem createAccount_existing_user_witness :
    (createAccount envOk stUser "Ann" "a@x.com").2.1 = stUser ∧
    (createAccount envOk stUser "Ann" "a@x.com").2.2.filter isOtpRequested =
      [Ev.otpRequested "a@x.com"] ∧
    (createAccount envOk stUser "Ann" "a@x.com").2.2.filter isDocCreated =
      [] :=
  createAccount_existing_user envOk stUser "Ann" "a@x.com" userEx rfl

/-- C9: when the OTP dispatch fails — the provider call errors, or it yields
the empty account id — `createAccount` ends in an error, the state is
unchanged (no User document was created), and the trace is exactly the user
lookup followed by the OTP request: the lookup precedes the send and no
document creation ever follows a failed send. -/
theorem createAccount_otp_failure (env : Env) (st : St)
    (fullName email : String)
    (hfail : (∃ e, env.createEmailToken email = .error e) ∨
      env.createEmailToken email = .ok "") :
    (∃ er, (createAccount env st fullName email).1 = .error er) ∧
    (createAccount env st fullName email).2.1 = st ∧
    (createAccount env st fullName email).2.2 =
      [Ev.lookupUser email, Ev.otpRequested email] := by
  rcases hfail with ⟨e, he⟩ | he <;>
    simp [createAccount, getUserByEmail, sendEmailOTP, he]

/-- C9 witness: on a provider whose token call fails, `createAccount` ends
in an error with no document created. -/
theorem createAccount_otp_failure_witness :
    (∃ er, (createAccount envDown stEmpty "Ann" "a@x.com").1 = .error er) ∧
    (createAccount envDown stEmpty "Ann" "a@x.com").2.1 = stEmpty ∧
    (createAccount envDown stEmpty "Ann" "a@x.com").2.2 =
      [Ev.lookupUser "a@x.com", Ev.otpRequested "a@x.com"] :=
  createAccount_otp_failure envDown stEmpty "Ann" "a@x.com"
    (Or.inl ⟨"network", rfl⟩)

/-! ## C5: getCurrentUser -/

/-- C5: `getCurrentUser` returns nothing — without raising, its result type
has no error case as every failure is caught — when no session cookie is
present; when a session is present and accepted but no User document carries
the identity's account id; and when the provider rejects the session. -/
theorem getCurrentUser_spec (env : Env) (st : St) :
    (st.cookie = none → getCurrentUser env st = (none, st, [])) ∧
    (∀ c, st.cookie = some c → c.value ≠ "" →
      ∀ accId, env.accountGet c.value = .ok accId →
      st.users.filter (fun d => d.accountId = accId) = [] →
      getCurrentUser env st = (none, st, [])) ∧
    (∀ c e, st.cookie = some c → env.accountGet c.value = .error e →
      getCurrentUser env st = (none, st, [])) := by
  refine ⟨?_, ?_, ?_⟩
  · intro h
    simp [getCurrentUser, createSessionClient, h]
  · intro c hc hv accId hacc hfilter
    simp [getCurrentUser, createSessionClient, hc, hv, hacc, hfilter]
  · intro c e hc hacc
    by_cases hv : c.value = "" <;>
      simp [getCurrentUser, createSessionClient, hc, hv, hacc]

/-- C5 witness: with no cookie on the empty state, and with a valid cookie
whose identity matches no document on a user-free state, `getCurrentUser`
returns nothing. -/
theorem getCurrentUser_spec_witness :
    getCurrentUser envOk stEmpty = (none, stEmpty, []) ∧
    getCurrentUser envOk ⟨[], some cookieEx, 0⟩ =
      (none, ⟨[], some cookieEx, 0⟩, []) :=
  ⟨(getCurrentUser_spec envOk stEmpty).1 rfl,
   (getCurrentUser_spec envOk ⟨[], some cookieEx, 0⟩).2.1 cookieEx rfl
     (by decide) "acct-1" rfl rfl⟩

/-! ## C6: signInUser -/

/-- C6: when a User document with the given email exists and the provider
accepts the token request, `signInUser` requests one OTP and returns the
existing document's account id; when no such document exists, it returns
`{ accountId: null, error: "User not found" }` without raising and requests
no OTP. -/
theorem signInUser_spec (env : Env) (st : St) (email : String) :
    ((listByEmail st.users email).head? = none →
      signInUser env st email =
        (.ok ⟨none, some "User not found"⟩, st, [Ev.lookupUser email])) ∧
    (∀ u, (listByEmail st.users email).head? = some u →
      ∀ uid, env.createEmailToken email = .ok uid →
      signInUser env st email =
        (.ok ⟨some u.accountId, none⟩, st,
         [Ev.lookupUser email, Ev.otpRequested email])) := by
  constructor
  · intro h
    simp [signInUser, getUserByEmail, h, parseStringify]
  · intro u hu uid huid
    simp [signInUser, getUserByEmail, sendEmailOTP, hu, huid, parseStringify]

/-- C6 witness: sign-in for the registered email returns its account id and
requests an OTP; sign-in for an unknown email returns the structured
not-found value. -/
theorem signInUser_spec_witness :
    signInUser envOk stUser "a@x.com" =
      (.ok ⟨some "acct-1", none⟩, stUser,
       [Ev.lookupUser "a@x.com", Ev.otpRequested "a@x.com"]) ∧
    signInUser envOk stEmpty "b@x.com" =
      (.ok ⟨none, some "User not found"⟩, stEmpty,
       [Ev.lookupUser "b@x.com"]) :=
  ⟨(signInUser_spec envOk stUser "a@x.com").2 userEx rfl "acct-1" rfl,
   (signInUser_spec envOk stEmpty "b@x.com").1 rfl⟩

/-! ## C10: the cookie frame -/

theorem getCurrentUser_state (env : Env) (st : St) :
    (getCurrentUser env st).2.1 = st := by
  cases h1 : createSessionClient st.cookie with
  | error e => simp [getCurrentUser, h1]
  | ok client =>
    cases h2 : env.accountGet client.account with
    | error e => simp [getCurrentUser, h1, h2]
    | ok accId =>
      cases h3 : (st.users.filter (fun d => d.accountId = accId)).head? <;>
        simp [getCurrentUser, h1, h2, h3]

theorem signInUser_state (env : Env) (st : St) (email : String) :
    (signInUser env st email).2.1 = st := by
  cases h1 : (listByEmail st.users email).head? with
  | none => simp [signInUser, getUserByEmail, h1]
  | some u =>
    cases h2 : env.createEmailToken email <;>
      simp [signInUser, getUserByEmail, sendEmailOTP, h1, h2]

theorem createAccount_cookie (env : Env) (st : St) (fullName email : String) :
    (createAccount env st fullName email).2.1.cookie = st.cookie := by
  cases h1 : env.createEmailToken email with
  | error e => simp [createAccount, getUserByEmail, sendEmailOTP, h1]
  | ok accountId =>
    by_cases ha : accountId = ""
    · simp [createAccount, getUserByEmail, sendEmailOTP, h1, ha]
    · cases h2 : (listByEmail st.users email).head? <;>
        simp [createAccount, getUserByEmail, sendEmailOTP, h1, ha, h2]

/-- C10: in every execution, `getUserByEmail`, `sendEmailOTP`,
`createAccount`, `getCurrentUser` and `signInUser` leave the
`appwrite-session` cookie exactly as it was; `verifySecret` either leaves it
unchanged or sets it to the session secret the provider issued (its only
write); `signOutUser` either leaves it unchanged or deletes it (its only
write). -/
theorem cookie_frame (env : Env) (st : St)
    (fullName email accountId otp : String) :
    (getUserByEmail st email).2.1.cookie = st.cookie ∧
    (sendEmailOTP env st email).2.1.cookie = st.cookie ∧
    (createAccount env st fullName email).2.1.cookie = st.cookie ∧
    (getCurrentUser env st).2.1.cookie = st.cookie ∧
    (signInUser env st email).2.1.cookie = st.cookie ∧
    ((verifySecret env st accountId otp).2.1.cookie = st.cookie ∨
      ∃ s, env.createSession accountId otp = .ok s ∧
        (verifySecret env st accountId otp).2.1.cookie =
          some ⟨s.secret, "/", true, .strict, true⟩) ∧
    ((signOutUser env st).2.1.cookie = st.cookie ∨
      (signOutUser env st).2.1.cookie = none) := by
  refine ⟨rfl, rfl, createAccount_cookie env st fullName email,
    by rw [getCurrentUser_state], by rw [signInUser_state], ?_, ?_⟩
  · cases h : env.createSession accountId otp with
    | ok s => exact Or.inr ⟨s, rfl, by simp [verifySecret, h]⟩
    | error e => exact Or.inl (by simp [verifySecret, h])
  · cases h1 : createSessionClient st.cookie with
    | error e => exact Or.inl (by simp [signOutUser, h1])
    | ok client =>
      cases h2 : env.deleteSession client.account with
      | ok u => exact Or.inr (by simp [signOutUser, h1, h2])
      | error e => exact Or.inl (by simp [signOutUser, h1, h2])

/-! ## C8: the auth form schema -/

theorem isWellFormedEmail_ne_empty (e : String)
    (h : isWellFormedEmail e = true) : e ≠ "" := by
  intro he
  subst he
  exact absurd h (by decide)

/-- C8: the schema accepts an input exactly when the email passes the
well-formed, non-empty address check and, in sign-up mode, a `fullName` of 2
to 50 characters is present; in sign-in mode acceptance does not depend on
`fullName` at all. -/
theorem authFormSchema_spec (email : String) (n m : Option String) :
    (authFormSchema .signUp email n = true ↔
      (isWellFormedEmail email = true ∧ email ≠ "" ∧
       ∃ s, n = some s ∧ 2 ≤ s.length ∧ s.length ≤ 50)) ∧
    (authFormSchema .signIn email n = true ↔
      (isWellFormedEmail email = true ∧ email ≠ "")) ∧
    authFormSchema .signIn email n = authFormSchema .signIn email m := by
  refine ⟨?_, ?_, by simp [authFormSchema]⟩
  · cases n with
    | none => simp [authFormSchema]
    | some s =>
      simp only [authFormSchema, Bool.and_eq_true, decide_eq_true_eq]
      constructor
      · rintro ⟨h1, h2, h3⟩
        exact ⟨h1, isWellFormedEmail_ne_empty email h1, s, rfl, h2, h3⟩
      · rintro ⟨h1, -, s2, hs2, h2, h3⟩
        injection hs2 with hs
        subst hs
        exact ⟨h1, h2, h3⟩
  · simp only [authFormSchema, Bool.and_true]
    constructor
    · exact fun h => ⟨h, isWellFormedEmail_ne_empty email h⟩
    · exact fun h => h.1

end DocStore
